import Mathlib

/-!
Shallow embedding of the ccseva usage-tracking code and proofs about it.

Embedded sources:
* `src/services/zaiService.ts` — class `ZAIService` (cache / fetch / fallback /
  mock pipeline) and its helpers;
* `src/services/settingsService.ts` — `SettingsService.loadSettings` and the
  default settings;
* `main.ts` — `CCSevaApp.getActiveService` / data-source selection.

Modelling conventions:
* JS `number` is modelled as `ℚ` (exact rational arithmetic); token counts,
  which are nonnegative integral quantities, as `ℕ`; millisecond timestamps
  as `ℤ` (so that `now - lastUpdate` behaves like the JS subtraction even
  when negative).
* `Math.round` is `jsRound` (floor of `x + 1/2`, JS rounds half away from
  minus infinity), `Math.floor` is `⌊·⌋`.
* The HTTP layer is an oracle value `HttpOutcome`: either the `fetch` call
  rejects, or it yields a response with a status code and a parsed body
  (`none` when `response.json()` fails); the fetch property `response.ok` is
  status ∈ [200, 299].
* The JS `Date` library, `Math.random`, and `ResetTimeService` (a separate
  file of the repository, not involved in any claim) are oracle functions
  bundled in `Env`.
* The mutable fields of the `ZAIService` singleton are a `ZaiState` record
  threaded explicitly; one call of `getUsageStats` returns the stats, the
  new state, and the list of network requests it started (both endpoint
  fetches are started together by `Promise.all`).
* `String.prototype.localeCompare`-based sorting is modelled as sorting by
  code-point order (`strLe`), which coincides with it on `YYYY-MM-DD`
  date keys.
-/

namespace CCSeva

/-- Boolean lexicographic order on lists of naturals (code points). -/
def natListLe : List Nat → List Nat → Bool
  | [], _ => true
  | _ :: _, [] => false
  | x :: xs, y :: ys =>
      if x < y then true else if y < x then false else natListLe xs ys

/-- Code-point order on strings; executable model of `localeCompare`-sorting. -/
def strLe (a b : String) : Bool :=
  natListLe (a.data.map Char.toNat) (b.data.map Char.toNat)

/-- The order `strLe` as a proposition, for use with `List.insertionSort`. -/
def strLeP (a b : String) : Prop := strLe a b = true

instance : DecidableRel strLeP := fun a b => Bool.decEq (strLe a b) true

theorem natListLe_total : ∀ xs ys, natListLe xs ys = true ∨ natListLe ys xs = true
  | [], _ => Or.inl rfl
  | _ :: _, [] => Or.inr rfl
  | x :: xs, y :: ys => by
      rcases lt_trichotomy x y with h | h | h
      · left; simp [natListLe, h]
      · subst h
        rcases natListLe_total xs ys with ih | ih
        · left; simp [natListLe, ih]
        · right; simp [natListLe, ih]
      · right; simp [natListLe, h]

theorem natListLe_trans : ∀ xs ys zs, natListLe xs ys = true → natListLe ys zs = true →
    natListLe xs zs = true
  | [], _, _, _, _ => rfl
  | _ :: _, [], _, h, _ => by simp [natListLe] at h
  | _ :: _, _ :: _, [], _, h => by simp [natListLe] at h
  | x :: xs, y :: ys, z :: zs, h1, h2 => by
      simp only [natListLe] at h1 h2 ⊢
      rcases lt_trichotomy x y with hxy | hxy | hxy
      · rcases lt_trichotomy y z with hyz | hyz | hyz
        · simp [lt_trans hxy hyz]
        · subst hyz; simp [hxy]
        · simp [lt_asymm hyz, hyz] at h2
      · subst hxy
        rcases lt_trichotomy x z with hxz | hxz | hxz
        · simp [hxz]
        · subst hxz
          simp [lt_irrefl] at h1 h2 ⊢
          exact natListLe_trans xs ys zs h1 h2
        · simp [lt_asymm hxz, hxz] at h2
      · simp [lt_asymm hxy, hxy] at h1

instance : IsTotal String strLeP := ⟨fun x y => natListLe_total (x.data.map Char.toNat) (y.data.map Char.toNat)⟩

instance : IsTrans String strLeP := ⟨fun _ _ _ h1 h2 => natListLe_trans _ _ _ h1 h2⟩

/-- JS `Math.round`: round half away from minus infinity. -/
def jsRound (q : ℚ) : Int := ⌊q + 1 / 2⌋

/-! ## Data model (`src/types/usage.ts`) -/

/-- Per-model usage breakdown entry (always empty in `ZAIService`). -/
structure ModelBreakdown where
  tokens : Nat
  cost : ℚ
  deriving DecidableEq

/-- Embedding of `DailyUsage` of `usage.ts`. -/
structure DailyUsage where
  date : String
  totalTokens : Nat
  totalCost : ℚ
  models : List (String × ModelBreakdown)
  deriving DecidableEq

/-- Embedding of `ResetTimeInfo` of `usage.ts`, produced by `ResetTimeService`. -/
structure ResetTimeInfo where
  nextResetTime : String
  timeUntilReset : ℚ
  resetHour : Nat
  timezone : String
  percentUntilReset : ℚ
  daysInCycle : ℚ
  daysSinceReset : ℚ
  deriving DecidableEq

/-- Trend direction of `VelocityInfo`. -/
inductive Trend where
  | increasing
  | decreasing
  | stable
  deriving DecidableEq

/-- Embedding of `VelocityInfo` of `usage.ts` (rounded fields are integers). -/
structure VelocityInfo where
  current : Int
  average24h : Int
  average7d : Int
  trend : Trend
  trendPercent : ℚ
  peakHour : Nat
  isAccelerating : Bool
  deriving DecidableEq

/-- Embedding of `PredictionInfo` of `usage.ts`. -/
structure PredictionInfo where
  depletionTime : Option String
  confidence : Int
  daysRemaining : ℚ
  recommendedDailyLimit : ℚ
  onTrackForReset : Bool
  deriving DecidableEq

/-- Embedding of `ActualResetInfo` of `usage.ts`; the `Date` is kept as epoch milliseconds. -/
structure ActualResetInfo where
  nextResetTime : ℚ
  timeUntilReset : ℚ
  formattedTimeRemaining : String
  deriving DecidableEq

/-- The plan union `Pro | Max5 | Max20 | Custom`. -/
inductive Plan where
  | Pro
  | Max5
  | Max20
  | Custom
  deriving DecidableEq

/-- Embedding of `UsageStats` of `usage.ts`, restricted to the fields `ZAIService` produces
(the ccusage-only optional fields `sessionTracking`, `enhancedResetInfo`,
`advancedBurnRate`, `planManager`, `limitDetection` are never set by this
service and are omitted). -/
structure UsageStats where
  today : DailyUsage
  thisWeek : List DailyUsage
  thisMonth : List DailyUsage
  burnRate : Int
  velocity : VelocityInfo
  prediction : PredictionInfo
  resetInfo : ResetTimeInfo
  actualResetInfo : Option ActualResetInfo
  predictedDepleted : Option String
  currentPlan : Plan
  tokenLimit : ℚ
  tokensUsed : ℚ
  tokensRemaining : ℚ
  percentageUsed : ℚ
  deriving DecidableEq

/-! ## z.ai API response types (`usage.ts`, z.ai section) -/

/-- Embedding of `ZaiQuotaLimit` of `usage.ts`. -/
structure ZaiQuotaLimit where
  type : String
  unit : ℚ
  number : ℚ
  usage : ℚ
  currentValue : ℚ
  remaining : ℚ
  percentage : ℚ
  nextResetTime : Option ℚ
  deriving DecidableEq

/-- Embedding of `ZaiQuotaResponse` of `usage.ts`; `limits` models `data.data?.limits`
(`none` when either `data` or `data.limits` is absent from the JSON). -/
structure ZaiQuotaResponse where
  code : Int
  msg : String
  limits : Option (List ZaiQuotaLimit)
  success : Bool
  deriving DecidableEq

/-- The `totalUsage` object of the model-usage response. -/
structure ZaiTotalUsage where
  totalModelCallCount : Nat
  totalTokensUsage : Nat
  deriving DecidableEq

/-- The `data` object of `ZaiModelUsageResponse`; the fields are optional
because the code guards each access (`data.totalUsage?.…`, `x_time || []`). -/
structure ZaiModelUsageData where
  totalUsage : Option ZaiTotalUsage
  x_time : Option (List String)
  deriving DecidableEq

/-- Embedding of `ZaiModelUsageResponse` of `usage.ts`; `data` is `none` when the JSON has
no `data` member (the `!data.data` check in `fetchModelUsage`). -/
structure ZaiModelUsageResponse where
  code : Int
  success : Bool
  data : Option ZaiModelUsageData
  deriving DecidableEq

/-! ## Oracles: HTTP layer and JS runtime environment -/

/-- Outcome of one `fetch` exchange: the promise rejects (network failure),
or a response with an HTTP status arrives whose JSON body parses to `body`
(`none` when `response.json()` rejects). -/
inductive HttpOutcome (β : Type) where
  | networkError
  | response (status : Nat) (body : Option β)
  deriving DecidableEq

/-- Embedding of `response.ok` of the fetch API: status in the inclusive range 200–299. -/
def respOk (status : Nat) : Bool :=
  decide (200 ≤ status) && decide (status ≤ 299)

/-- Errors thrown by the fetch helpers of `ZAIService` (`throw new Error(…)`). -/
inductive ZaiError where
  | authFailed
  | rateLimited
  | httpFailed (status : Nat)
  | parseFailed
  | invalidResponse
  | tokensLimitNotFound
  | network
  deriving DecidableEq

/-- Oracle bundle for the JS runtime facilities used by `ZAIService`:
`Date.now`, `Date`-to-string conversions and parsing, the two calendar
cutoffs `weekAgo` / `monthAgo` computed with `setDate`, `Math.random`
(as the per-index token count `Math.floor(Math.random() * 2000) + 500`),
and `ResetTimeService.calculateResetInfo()` (defined in
`resetTimeService.ts`, outside the scope of the claims). -/
structure Env where
  nowMs : Int
  todayStr : String
  resetInfo : ResetTimeInfo
  msToDateStr : Int → String
  msToIso : ℚ → String
  dateToMs : String → Int
  weekAgoMs : Int
  monthAgoMs : Int
  randTokens : Nat → Nat

/-! ## `ZAIService` pure helpers -/

/-- Embedding of `ZAIService.detectPlanFromLimit` (zaiService.ts lines 419–424). -/
def detectPlanFromLimit (tokenLimit : ℚ) : Plan :=
  if tokenLimit ≤ 7000 then Plan.Pro
  else if tokenLimit ≤ 35000 then Plan.Max5
  else if tokenLimit ≤ 140000 then Plan.Max20
  else Plan.Custom

/-- Embedding of `ZAIService.getEmptyDailyUsage` (lines 454–461). -/
def getEmptyDailyUsage (env : Env) : DailyUsage :=
  { date := env.todayStr, totalTokens := 0, totalCost := 0, models := [] }

/-- Embedding of `ZAIService.generateMockDailyData` (lines 530–548): the loop runs
`i = days - 1` down to `0`. -/
def generateMockDailyData (env : Env) (days : Nat) : List DailyUsage :=
  (List.range days).reverse.map fun i =>
    { date := env.msToDateStr (env.nowMs - Int.ofNat i * 86400000)
      totalTokens := env.randTokens i
      totalCost := 0
      models := [] }

/-- Embedding of `ZAIService.getMockStats` (lines 481–525). -/
def getMockStats (env : Env) : UsageStats :=
  let today := env.todayStr
  let tokensUsed : ℚ := 25000
  let tokenLimit : ℚ := 40000000
  let velocity : VelocityInfo :=
    { current := 120, average24h := 100, average7d := 90, trend := Trend.increasing
      trendPercent := 20, peakHour := 14, isAccelerating := true }
  let prediction : PredictionInfo :=
    { depletionTime := some (env.msToIso ((env.nowMs : ℚ) + 138 * 60 * 60 * 1000))
      confidence := 85, daysRemaining := 575 / 100
      recommendedDailyLimit := 6500, onTrackForReset := true }
  let resetInfo := env.resetInfo
  { today := { date := today, totalTokens := 1200, totalCost := 0, models := [] }
    thisWeek := generateMockDailyData env 7
    thisMonth := generateMockDailyData env 30
    burnRate := velocity.current
    velocity := velocity
    prediction := prediction
    resetInfo := resetInfo
    actualResetInfo := none
    predictedDepleted := prediction.depletionTime
    currentPlan := Plan.Custom
    tokenLimit := tokenLimit
    tokensUsed := tokensUsed
    tokensRemaining := tokenLimit - tokensUsed
    percentageUsed := tokensUsed / tokenLimit * 100 }

/-- The date part extracted by `hourStr.split(' ')[0]` followed by the
falsiness check `if (!datePart) continue` (lines 332–333): `split(' ')[0]`
is the prefix of the string before its first space, and the empty string is
falsy. -/
def datePartOf (hourStr : String) : Option String :=
  let d := String.mk (hourStr.data.takeWhile fun c => ¬ c = ' ')
  if d = "" then none else some d

/-- The distinct date keys of the `dailyMap` built by `mapHourlyToDailyUsage`
(`List.dedup` keeps the first occurrence of each key, like `Map` insertion
order). -/
def dailyKeysOf (modelUsage : ZaiModelUsageData) : List String :=
  ((modelUsage.x_time.getD []).filterMap datePartOf).dedup

/-- The per-day token count of `mapHourlyToDailyUsage` (lines 356–362):
`Math.floor(totalTokens / dailyMap.size)` when both are positive, else the
initial `0`. -/
def tokensPerDayOf (modelUsage : ZaiModelUsageData) : Nat :=
  let totalTokens := (modelUsage.totalUsage.map ZaiTotalUsage.totalTokensUsage).getD 0
  if 0 < totalTokens ∧ 0 < (dailyKeysOf modelUsage).length then
    totalTokens / (dailyKeysOf modelUsage).length
  else 0

/-- Embedding of `ZAIService.mapHourlyToDailyUsage` (lines 324–366): one `DailyUsage` per
distinct date key (`totalCost` 0, no per-model breakdown), every entry
assigned `tokensPerDayOf`, and the values array sorted by `localeCompare`. -/
def mapHourlyToDailyUsage (modelUsage : ZaiModelUsageData) : List DailyUsage :=
  (List.insertionSort strLeP (dailyKeysOf modelUsage)).map fun d =>
    { date := d, totalTokens := tokensPerDayOf modelUsage, totalCost := 0, models := [] }

/-- The `current / total24h / total7d` triple computed by the two nested `if`s
of `calculateVelocityFromModelUsage` (lines 285–300). -/
def velocityRaw (modelUsage : ZaiModelUsageData) : ℚ × ℚ × ℚ :=
  let hourlyData := modelUsage.x_time.getD []
  let totalTokens := (modelUsage.totalUsage.map ZaiTotalUsage.totalTokensUsage).getD 0
  if 0 < hourlyData.length then
    if 0 < totalTokens then
      let c : ℚ := (totalTokens : ℚ) / max 1 ((hourlyData.length : ℚ) / 24)
      (c, c, c * (4 / 5))
    else (0, 0, 0)
  else (0, 0, 0)

/-- The local `trendPercent` of `calculateVelocityFromModelUsage` (line 303):
`total24h > 0 ? ((current - total24h) / total24h) * 100 : 0`, before the
final rounding. -/
def trendPercentOf (modelUsage : ZaiModelUsageData) : ℚ :=
  if 0 < (velocityRaw modelUsage).2.1 then
    ((velocityRaw modelUsage).1 - (velocityRaw modelUsage).2.1) /
      (velocityRaw modelUsage).2.1 * 100
  else 0

/-- The local `trend` of `calculateVelocityFromModelUsage` (lines 304–308). -/
def trendOf (modelUsage : ZaiModelUsageData) : Trend :=
  if 15 < |trendPercentOf modelUsage| then
    (if 0 < trendPercentOf modelUsage then Trend.increasing else Trend.decreasing)
  else Trend.stable

/-- Embedding of `ZAIService.calculateVelocityFromModelUsage` (lines 281–319). -/
def calculateVelocityFromModelUsage (modelUsage : ZaiModelUsageData) : VelocityInfo :=
  { current := jsRound (velocityRaw modelUsage).1
    average24h := jsRound (velocityRaw modelUsage).2.1
    average7d := jsRound (velocityRaw modelUsage).2.2
    trend := trendOf modelUsage
    trendPercent := (jsRound (trendPercentOf modelUsage * 10) : ℚ) / 10
    peakHour := 14
    isAccelerating :=
      decide (trendOf modelUsage = Trend.increasing ∧ 20 < trendPercentOf modelUsage) }

/-- Embedding of `ZAIService.calculatePredictionInfo` (lines 371–414). -/
def calculatePredictionInfo (env : Env) (tokensUsed tokenLimit : ℚ)
    (velocity : VelocityInfo) (resetInfo : ResetTimeInfo) : PredictionInfo :=
  let tokensRemaining := max 0 (tokenLimit - tokensUsed)
  let confidence : ℚ :=
    if 0 < velocity.current ∧ 0 < velocity.average24h then
      let c : ℚ := min 95 (50 + 30)
      if 50 < |velocity.trendPercent| then c - 20 else c
    else 50
  let dtDays : Option String × ℚ :=
    if 0 < velocity.current then
      let hoursRemaining := tokensRemaining / (velocity.current : ℚ)
      (some (env.msToIso ((env.nowMs : ℚ) + hoursRemaining * 60 * 60 * 1000)),
        hoursRemaining / 24)
    else (none, 0)
  let depletionTime := dtDays.1
  let daysRemaining := dtDays.2
  let hoursUntilReset := resetInfo.timeUntilReset / (1000 * 60 * 60)
  let recommendedDailyLimit : ℚ :=
    if 24 < hoursUntilReset then (⌊tokensRemaining / (hoursUntilReset / 24)⌋ : ℚ)
    else tokensRemaining
  let onTrackForReset := decide (0 < tokensRemaining ∧ hoursUntilReset / 24 ≤ daysRemaining)
  { depletionTime := depletionTime
    confidence := jsRound confidence
    daysRemaining := (jsRound (daysRemaining * 10) : ℚ) / 10
    recommendedDailyLimit := recommendedDailyLimit
    onTrackForReset := onTrackForReset }

/-- Embedding of `ZAIService.mapZaiToUsageStats` (lines 195–276).  The `modelUsage`
argument is the (already null-checked) `data` member of the model-usage
response returned by `fetchModelUsage`. -/
def mapZaiToUsageStats (env : Env) (quota : ZaiQuotaLimit)
    (modelUsage : ZaiModelUsageData) : UsageStats :=
  let tokensUsed := quota.currentValue
  let tokenLimit := quota.usage
  let tokensRemaining := quota.remaining
  let percentageUsed := quota.percentage
  let velocity := calculateVelocityFromModelUsage modelUsage
  let resetInfo := env.resetInfo
  let actualResetInfo : Option ActualResetInfo :=
    match quota.nextResetTime with
    | none => none
    | some t =>
        let nextResetMs : ℚ := t * 1000
        let timeUntilReset : ℚ := max 0 (nextResetMs - (env.nowMs : ℚ))
        let hours : Int := ⌊timeUntilReset / (1000 * 60 * 60)⌋
        let minutes : Int :=
          ⌊(timeUntilReset - 1000 * 60 * 60 * ⌊timeUntilReset / (1000 * 60 * 60)⌋) /
            (1000 * 60)⌋
        let formattedTimeRemaining : String :=
          if timeUntilReset ≤ 0 then "Reset available"
          else if 0 < hours then toString hours ++ "h " ++ toString minutes ++ "m left"
          else if 0 < minutes then toString minutes ++ "m left"
          else "< 1m left"
        some { nextResetTime := nextResetMs, timeUntilReset := timeUntilReset
               formattedTimeRemaining := formattedTimeRemaining }
  let prediction := calculatePredictionInfo env tokensUsed tokenLimit velocity resetInfo
  let dailyUsage := mapHourlyToDailyUsage modelUsage
  let todayStr := env.todayStr
  let todayData := (dailyUsage.find? fun d => decide (d.date = todayStr)).getD (getEmptyDailyUsage env)
  let currentPlan := detectPlanFromLimit tokenLimit
  { today := todayData
    thisWeek := dailyUsage.filter fun d => decide (env.weekAgoMs ≤ env.dateToMs d.date)
    thisMonth := dailyUsage.filter fun d => decide (env.monthAgoMs ≤ env.dateToMs d.date)
    burnRate := velocity.current
    velocity := velocity
    prediction := prediction
    resetInfo := resetInfo
    actualResetInfo := actualResetInfo
    predictedDepleted := prediction.depletionTime
    currentPlan := currentPlan
    tokenLimit := tokenLimit
    tokensUsed := tokensUsed
    tokensRemaining := tokensRemaining
    percentageUsed := percentageUsed }

/-! ## `ZAIService` fetch helpers -/

/-- Whether an `Except` is in the error case. -/
def isFailure {ε α : Type} : Except ε α → Bool
  | Except.error _ => true
  | Except.ok _ => false

/-- Embedding of `ZAIService.fetchQuotaLimit` (lines 103–141).  The `catch` clause only
logs and rethrows, so the function is the composition of the status checks,
the body checks, and the `TOKENS_LIMIT` lookup. -/
def fetchQuotaLimit (h : HttpOutcome ZaiQuotaResponse) : Except ZaiError ZaiQuotaLimit :=
  match h with
  | HttpOutcome.networkError => Except.error ZaiError.network
  | HttpOutcome.response status body =>
      if respOk status = false then
        if status = 401 ∨ status = 403 then Except.error ZaiError.authFailed
        else if status = 429 then Except.error ZaiError.rateLimited
        else Except.error (ZaiError.httpFailed status)
      else
        match body with
        | none => Except.error ZaiError.parseFailed
        | some data =>
            match data.success, data.limits with
            | true, some limits =>
                match limits.find? fun l => decide (l.type = "TOKENS_LIMIT") with
                | some tokensLimit => Except.ok tokensLimit
                | none => Except.error ZaiError.tokensLimitNotFound
            | _, _ => Except.error ZaiError.invalidResponse

/-- Embedding of `ZAIService.fetchModelUsage` (lines 147–189).  The source returns the
whole response after checking `data.success && data.data`; its callers only
ever use the `data` member, which this model returns directly. -/
def fetchModelUsage (h : HttpOutcome ZaiModelUsageResponse) : Except ZaiError ZaiModelUsageData :=
  match h with
  | HttpOutcome.networkError => Except.error ZaiError.network
  | HttpOutcome.response status body =>
      if respOk status = false then
        if status = 401 ∨ status = 403 then Except.error ZaiError.authFailed
        else if status = 429 then Except.error ZaiError.rateLimited
        else Except.error (ZaiError.httpFailed status)
      else
        match body with
        | none => Except.error ZaiError.parseFailed
        | some data =>
            match data.success, data.data with
            | true, some d => Except.ok d
            | _, _ => Except.error ZaiError.invalidResponse

/-! ## `ZAIService.getUsageStats` as a state machine -/

/-- The two z.ai endpoints contacted by `getUsageStats`. -/
inductive Endpoint where
  | quota
  | modelUsage
  deriving DecidableEq

/-- The mutable fields of the `ZAIService` singleton that `getUsageStats`
reads or writes. -/
structure ZaiState where
  apiKey : String
  cachedStats : Option UsageStats
  lastUpdate : Int
  lastQuotaData : Option ZaiQuotaLimit
  lastModelUsageData : Option ZaiModelUsageData
  deriving DecidableEq

/-- What the network would answer on this call, one oracle per endpoint. -/
structure FetchInputs where
  quotaHttp : HttpOutcome ZaiQuotaResponse
  usageHttp : HttpOutcome ZaiModelUsageResponse
  deriving DecidableEq

/-- Result of one `getUsageStats` call: the returned stats, the new service
state and the batch of requests started (the two `Promise.all` fetches are
started together, before either resolves, so all the listed requests are
simultaneously in flight). -/
structure CallResult where
  stats : UsageStats
  state : ZaiState
  requests : List Endpoint

/-- Embedding of `ZAIService.CACHE_DURATION` (line 27): 30 seconds in milliseconds. -/
def CACHE_DURATION : Int := 30000

/-- The `try`/`catch` body of `getUsageStats` (lines 62–96): mock shortcut
when no API key is configured, otherwise `Promise.all` of both fetches,
mapping and caching on success, and the cache-then-mock fallback on error. -/
def fetchAndMap (st : ZaiState) (env : Env) (inp : FetchInputs) (now : Int) : CallResult :=
  if st.apiKey = "" then
    { stats := getMockStats env, state := st, requests := [] }
  else
    match fetchQuotaLimit inp.quotaHttp, fetchModelUsage inp.usageHttp with
    | Except.ok quotaData, Except.ok modelUsageData =>
        let stats := mapZaiToUsageStats env quotaData modelUsageData
        { stats := stats
          state := { st with
            cachedStats := some stats
            lastUpdate := now
            lastQuotaData := some quotaData
            lastModelUsageData := some modelUsageData }
          requests := [Endpoint.quota, Endpoint.modelUsage] }
    | _, _ =>
        match st.cachedStats with
        | some cached =>
            { stats := cached, state := st, requests := [Endpoint.quota, Endpoint.modelUsage] }
        | none =>
            { stats := getMockStats env, state := st
              requests := [Endpoint.quota, Endpoint.modelUsage] }

/-- Embedding of `ZAIService.getUsageStats` (lines 54–97): return the cached stats when
they are younger than `CACHE_DURATION`, otherwise run the fetch body.  The
local `now = Date.now()` is `env.nowMs`. -/
def getUsageStats (st : ZaiState) (env : Env) (inp : FetchInputs) : CallResult :=
  match st.cachedStats with
  | some cached =>
      if env.nowMs - st.lastUpdate < CACHE_DURATION then
        { stats := cached, state := st, requests := [] }
      else fetchAndMap st env inp env.nowMs
  | none => fetchAndMap st env inp env.nowMs

/-! ## Settings (`settingsService.ts`) and data-source selection (`main.ts`) -/

/-- Embedding of `DataSource` of settingsService.ts. -/
inductive DataSource where
  | ccusage
  | zai
  deriving DecidableEq

/-- The plan union of `AppSettings`, including `auto`. -/
inductive PlanSetting where
  | auto
  | Pro
  | Max5
  | Max20
  | Custom
  deriving DecidableEq

/-- Embedding of `menuBarDisplayMode` union. -/
inductive MenuBarDisplayMode where
  | percentage
  | cost
  | alternate
  deriving DecidableEq

/-- Embedding of `menuBarCostSource` union. -/
inductive MenuBarCostSource where
  | today
  | sessionWindow
  deriving DecidableEq

/-- Embedding of `AppSettings` of settingsService.ts. -/
structure AppSettings where
  timezone : String
  resetHour : Int
  plan : PlanSetting
  customTokenLimit : Option ℚ
  menuBarDisplayMode : MenuBarDisplayMode
  menuBarCostSource : MenuBarCostSource
  dataSource : DataSource
  deriving DecidableEq

/-- Embedding of `Partial<AppSettings>` as parsed from the settings file: `none` means the
key is absent from the JSON object. -/
structure PartialAppSettings where
  timezone : Option String
  resetHour : Option Int
  plan : Option PlanSetting
  customTokenLimit : Option (Option ℚ)
  menuBarDisplayMode : Option MenuBarDisplayMode
  menuBarCostSource : Option MenuBarCostSource
  dataSource : Option DataSource
  deriving DecidableEq

/-- Embedding of `this.defaultSettings` built in the `SettingsService` constructor
(lines 593–601), parameterised by the auto-detected timezone. -/
def defaultSettings (detectedTimezone : String) : AppSettings :=
  { timezone := detectedTimezone
    resetHour := 0
    plan := PlanSetting.auto
    customTokenLimit := none
    menuBarDisplayMode := MenuBarDisplayMode.alternate
    menuBarCostSource := MenuBarCostSource.today
    dataSource := DataSource.ccusage }

/-- The object spread `{ ...defaultSettings, ...settings }` (lines 623–626):
every key present in the parsed file overrides the default. -/
def mergeSettings (d : AppSettings) (p : PartialAppSettings) : AppSettings :=
  { timezone := p.timezone.getD d.timezone
    resetHour := p.resetHour.getD d.resetHour
    plan := p.plan.getD d.plan
    customTokenLimit := p.customTokenLimit.getD d.customTokenLimit
    menuBarDisplayMode := p.menuBarDisplayMode.getD d.menuBarDisplayMode
    menuBarCostSource := p.menuBarCostSource.getD d.menuBarCostSource
    dataSource := p.dataSource.getD d.dataSource }

/-- State of the settings file on disk as `loadSettings` can observe it:
absent (`existsSync` false), unreadable (`readFileSync` or `JSON.parse`
throws), or successfully parsed. -/
inductive SettingsFile where
  | absent
  | unreadable
  | parsed (p : PartialAppSettings)
  deriving DecidableEq

/-- Embedding of `SettingsService.loadSettings` (lines 616–634): merge the parsed file
over the defaults; fall back to the defaults when the file is absent or any
step throws (the `catch` only logs). -/
def loadSettings (defaults : AppSettings) : SettingsFile → AppSettings
  | SettingsFile.parsed p => mergeSettings defaults p
  | _ => defaults

/-- The two usage services `CCSevaApp` can poll. -/
inductive Service where
  | ccusageService
  | zaiService
  deriving DecidableEq

/-- Embedding of `CCSevaApp.getActiveService` (main.ts lines 40–42). -/
def getActiveService (dataSource : DataSource) : Service :=
  if dataSource = DataSource.zai then Service.zaiService else Service.ccusageService

/-- The assignment of `settings.dataSource` (with fallback `ccusage`) to `this.dataSource` in
`CCSevaApp.initialize` (main.ts line 51); `dataSource` is an enum whose
values are never falsy, so the fallback arm cannot fire. -/
def resolveDataSource (settings : AppSettings) : DataSource :=
  settings.dataSource

/-! ## Concrete fixtures used by witnesses and counterexamples -/

/-- A concrete timezone string. -/
def tzW : String := "UTC"

/-- A concrete `ResetTimeInfo` as `ResetTimeService` could produce. -/
def sampleResetInfo : ResetTimeInfo :=
  { nextResetTime := "2025-01-02T00:00:00.000Z", timeUntilReset := 3600000
    resetHour := 0, timezone := tzW, percentUntilReset := 50
    daysInCycle := 30, daysSinceReset := 15 }

/-- A concrete runtime environment. -/
def sampleEnv : Env :=
  { nowMs := 100000, todayStr := "2025-01-01", resetInfo := sampleResetInfo
    msToDateStr := fun _ => "2025-01-01"
    msToIso := fun _ => "2025-01-01T00:00:00.000Z"
    dateToMs := fun _ => 0, weekAgoMs := 0, monthAgoMs := 0
    randTokens := fun _ => 500 }

/-- The same environment 10 seconds later. -/
def sampleEnv2 : Env := { sampleEnv with nowMs := 110000 }

/-- A concrete `UsageStats` value to preload the cache with. -/
def sampleStats : UsageStats := getMockStats sampleEnv

/-- Service state with an API key and an empty cache. -/
def stEmpty : ZaiState :=
  { apiKey := "key", cachedStats := none, lastUpdate := 0
    lastQuotaData := none, lastModelUsageData := none }

/-- Service state with a cached value that is stale at `sampleEnv.nowMs`. -/
def stCachedStale : ZaiState := { stEmpty with cachedStats := some sampleStats }

/-- Service state with a cached value that is fresh at `sampleEnv.nowMs`. -/
def stCachedFresh : ZaiState := { stCachedStale with lastUpdate := 90000 }

/-- A well-formed `TOKENS_LIMIT` quota entry. -/
def tlW : ZaiQuotaLimit :=
  { type := "TOKENS_LIMIT", unit := 1, number := 1, usage := 40000000
    currentValue := 20000000, remaining := 20000000, percentage := 50
    nextResetTime := none }

/-- A successful quota response carrying `tlW`. -/
def quotaRespW : ZaiQuotaResponse :=
  { code := 200, msg := "success", limits := some [tlW], success := true }

/-- Concrete model-usage data: three hourly points over two distinct dates. -/
def mudW : ZaiModelUsageData :=
  { totalUsage := some { totalModelCallCount := 10, totalTokensUsage := 4800 }
    x_time := some ["2025-01-02 10:00:00", "2025-01-01 11:00:00", "2025-01-01 12:00:00"] }

/-- A successful model-usage response carrying `mudW`. -/
def muRespW : ZaiModelUsageResponse := { code := 200, success := true, data := some mudW }

/-- Fetch inputs on which both endpoint calls succeed. -/
def inpOk : FetchInputs :=
  { quotaHttp := HttpOutcome.response 200 (some quotaRespW)
    usageHttp := HttpOutcome.response 200 (some muRespW) }

/-- Fetch inputs on which both endpoint calls reject at the network level. -/
def inpFail : FetchInputs :=
  { quotaHttp := HttpOutcome.networkError, usageHttp := HttpOutcome.networkError }

/-- A quota entry whose `remaining` and `percentage` fields do not satisfy
the arithmetic identities (`200 - 100 ≠ 5`, `100 / 200 * 100 ≠ 7`). -/
def quotaBad : ZaiQuotaLimit :=
  { type := "TOKENS_LIMIT", unit := 1, number := 1, usage := 200
    currentValue := 100, remaining := 5, percentage := 7, nextResetTime := none }

/-- Fetch inputs delivering `quotaBad` successfully. -/
def inpBad : FetchInputs :=
  { quotaHttp := HttpOutcome.response 200
      (some { code := 200, msg := "success", limits := some [quotaBad], success := true })
    usageHttp := HttpOutcome.response 200 (some muRespW) }

/-- A parsed settings file with every key absent. -/
def pEmpty : PartialAppSettings :=
  { timezone := none, resetHour := none, plan := none, customTokenLimit := none
    menuBarDisplayMode := none, menuBarCostSource := none, dataSource := none }

/-- Settings whose data source is the z.ai API. -/
def sZai : AppSettings := { defaultSettings tzW with dataSource := DataSource.zai }

/-! ## Helper lemmas about `getUsageStats` -/

theorem fetchAndMap_failed (st : ZaiState) (env : Env) (inp : FetchInputs) (now : Int)
    (hkey : ¬ st.apiKey = "")
    (hfail : isFailure (fetchQuotaLimit inp.quotaHttp) = true ∨
      isFailure (fetchModelUsage inp.usageHttp) = true) :
    fetchAndMap st env inp now =
      { stats := st.cachedStats.getD (getMockStats env), state := st
        requests := [Endpoint.quota, Endpoint.modelUsage] } := by
  unfold fetchAndMap
  rw [if_neg hkey]
  cases hq : fetchQuotaLimit inp.quotaHttp with
  | error e =>
      cases hc : st.cachedStats <;> simp [hc]
  | ok q =>
      cases hm : fetchModelUsage inp.usageHttp with
      | error e2 => cases hc : st.cachedStats <;> simp [hc]
      | ok m =>
          rw [hq, hm] at hfail
          simp [isFailure] at hfail

theorem fetchAndMap_ok (st : ZaiState) (env : Env) (inp : FetchInputs) (now : Int)
    (q : ZaiQuotaLimit) (m : ZaiModelUsageData)
    (hkey : ¬ st.apiKey = "")
    (hq : fetchQuotaLimit inp.quotaHttp = Except.ok q)
    (hm : fetchModelUsage inp.usageHttp = Except.ok m) :
    fetchAndMap st env inp now =
      { stats := mapZaiToUsageStats env q m
        state :=
          { st with
            cachedStats := some (mapZaiToUsageStats env q m)
            lastUpdate := now
            lastQuotaData := some q
            lastModelUsageData := some m }
        requests := [Endpoint.quota, Endpoint.modelUsage] } := by
  unfold fetchAndMap
  rw [if_neg hkey, hq, hm]

theorem getUsageStats_stale (st : ZaiState) (env : Env) (inp : FetchInputs)
    (hstale : st.cachedStats = none ∨ ¬ env.nowMs - st.lastUpdate < CACHE_DURATION) :
    getUsageStats st env inp = fetchAndMap st env inp env.nowMs := by
  unfold getUsageStats
  cases hc : st.cachedStats with
  | none => rfl
  | some cached =>
      rcases hstale with h | h
      · rw [hc] at h; cases h
      · dsimp only
        rw [if_neg h]

theorem fetchAndMap_requests (st : ZaiState) (env : Env) (inp : FetchInputs) (now : Int) :
    (fetchAndMap st env inp now).requests = [] ∨
    (fetchAndMap st env inp now).requests = [Endpoint.quota, Endpoint.modelUsage] := by
  unfold fetchAndMap
  split
  · exact Or.inl rfl
  · split
    · exact Or.inr rfl
    · split <;> exact Or.inr rfl

theorem getUsageStats_requests (st : ZaiState) (env : Env) (inp : FetchInputs) :
    (getUsageStats st env inp).requests = [] ∨
    (getUsageStats st env inp).requests = [Endpoint.quota, Endpoint.modelUsage] := by
  unfold getUsageStats
  cases hc : st.cachedStats with
  | none => exact fetchAndMap_requests st env inp env.nowMs
  | some cached =>
      dsimp only
      split
      · exact Or.inl rfl
      · exact fetchAndMap_requests st env inp env.nowMs

/-! ## Helper lemmas about the daily-usage mapper -/

theorem map_date_mk (l : List String) (t : Nat) :
    (l.map fun d =>
        ({ date := d, totalTokens := t, totalCost := 0, models := [] } : DailyUsage)).map
      DailyUsage.date = l := by
  induction l with
  | nil => rfl
  | cons a l ih => simp only [List.map_cons, ih]

theorem mapHourly_dates (mud : ZaiModelUsageData) :
    (mapHourlyToDailyUsage mud).map DailyUsage.date =
      List.insertionSort strLeP (dailyKeysOf mud) := by
  unfold mapHourlyToDailyUsage
  exact map_date_mk _ _

theorem tokensPerDayOf_eq (mud : ZaiModelUsageData)
    (hn : 0 < (dailyKeysOf mud).length) :
    tokensPerDayOf mud =
      ((mud.totalUsage.map ZaiTotalUsage.totalTokensUsage).getD 0) /
        (dailyKeysOf mud).length := by
  unfold tokensPerDayOf
  rcases Nat.eq_zero_or_pos ((mud.totalUsage.map ZaiTotalUsage.totalTokensUsage).getD 0) with
    ht | ht
  · rw [ht]; simp
  · rw [if_pos ⟨ht, hn⟩]

/-! ## Claim theorems -/

/-- Claim C5: a single invocation of `getUsageStats` issues at most one
request to the quota endpoint and at most one to the model-usage endpoint;
there is no retry or backoff, and the error path performs no further network
activity. -/
theorem getUsageStats_no_retry (st : ZaiState) (env : Env) (inp : FetchInputs) :
    (getUsageStats st env inp).requests.count Endpoint.quota ≤ 1 ∧
    (getUsageStats st env inp).requests.count Endpoint.modelUsage ≤ 1 := by
  rcases getUsageStats_requests st env inp with h | h <;> rw [h] <;>
    exact ⟨by decide, by decide⟩

/-- Claim C5 witness: on concrete inputs where both fetches fail, the request
counts stay at most one per endpoint. -/
theorem getUsageStats_no_retry_witness :
    (getUsageStats stEmpty sampleEnv inpFail).requests.count Endpoint.quota ≤ 1 ∧
    (getUsageStats stEmpty sampleEnv inpFail).requests.count Endpoint.modelUsage ≤ 1 :=
  getUsageStats_no_retry stEmpty sampleEnv inpFail

/-- Claim C6 counterexample: at the concrete state `stEmpty` (API key set, no
cache) with both fetches succeeding, a single invocation starts two requests
simultaneously via `Promise.all`, so it is false that at most one request is
in flight at a time. -/
theorem single_request_in_flight_counterexample :
    ¬ (getUsageStats stEmpty sampleEnv inpOk).requests.length ≤ 1 := by decide

/-- Claim C6 (amended): within one invocation of `getUsageStats` the two
endpoint requests are started together by `Promise.all`, so up to two — not
one — requests are in flight simultaneously; the batch is always either
empty or exactly the quota request plus the model-usage request. -/
theorem requests_in_flight_bound (st : ZaiState) (env : Env) (inp : FetchInputs) :
    (getUsageStats st env inp).requests.length ≤ 2 ∧
    ((getUsageStats st env inp).requests = [] ∨
      (getUsageStats st env inp).requests = [Endpoint.quota, Endpoint.modelUsage]) := by
  rcases getUsageStats_requests st env inp with h | h <;> rw [h]
  · exact ⟨by decide, Or.inl rfl⟩
  · exact ⟨by decide, Or.inr rfl⟩

/-- Claim C7: the poller uses the z.ai service exactly when the `dataSource`
setting is `zai` and the ccusage service otherwise, and a settings file
that is absent, unreadable, or lacks the `dataSource` key yields the default
`ccusage`. -/
theorem dataSource_selection (tz : String) (p : PartialAppSettings) (s : AppSettings) :
    (getActiveService (resolveDataSource s) = Service.zaiService ↔
      s.dataSource = DataSource.zai) ∧
    (getActiveService (resolveDataSource s) = Service.ccusageService ↔
      ¬ s.dataSource = DataSource.zai) ∧
    resolveDataSource (loadSettings (defaultSettings tz) SettingsFile.absent) =
      DataSource.ccusage ∧
    resolveDataSource (loadSettings (defaultSettings tz) SettingsFile.unreadable) =
      DataSource.ccusage ∧
    (p.dataSource = none →
      resolveDataSource (loadSettings (defaultSettings tz) (SettingsFile.parsed p)) =
        DataSource.ccusage) := by
  refine ⟨?_, ?_, rfl, rfl, ?_⟩
  · cases hds : s.dataSource <;>
      simp [getActiveService, resolveDataSource, hds]
  · cases hds : s.dataSource <;>
      simp [getActiveService, resolveDataSource, hds]
  · intro h
    simp [resolveDataSource, loadSettings, mergeSettings, defaultSettings, h]

/-- Claim C7 witness: with `dataSource` set to `zai` the z.ai service is chosen,
and a parsed settings file without a `dataSource` key resolves to ccusage. -/
theorem dataSource_selection_witness :
    getActiveService (resolveDataSource sZai) = Service.zaiService ∧
    resolveDataSource (loadSettings (defaultSettings tzW) (SettingsFile.parsed pEmpty)) =
      DataSource.ccusage :=
  ⟨(dataSource_selection tzW pEmpty sZai).1.mpr rfl,
    (dataSource_selection tzW pEmpty sZai).2.2.2.2 rfl⟩

/-- The `total24h` computed by `calculateVelocityFromModelUsage` is always
the same value as `current` (line 297, `total24h = current`). -/
theorem velocityRaw_total24h_eq_current (mud : ZaiModelUsageData) :
    (velocityRaw mud).2.1 = (velocityRaw mud).1 := by
  simp only [velocityRaw]
  split
  · split
    · rfl
    · rfl
  · rfl

theorem trendPercentOf_eq_zero (mud : ZaiModelUsageData) : trendPercentOf mud = 0 := by
  unfold trendPercentOf
  rw [velocityRaw_total24h_eq_current]
  split
  · rw [sub_self, zero_div, zero_mul]
  · rfl

/-- Claim C8: for every model-usage response the computed velocity has
`average24h = current`, `trendPercent = 0`, trend `stable`, and
`isAccelerating = false`; the API-derived trend analysis can never report
`increasing` or `decreasing`. -/
theorem calculateVelocity_trend_stable (mud : ZaiModelUsageData) :
    (calculateVelocityFromModelUsage mud).average24h =
      (calculateVelocityFromModelUsage mud).current ∧
    (calculateVelocityFromModelUsage mud).trendPercent = 0 ∧
    (calculateVelocityFromModelUsage mud).trend = Trend.stable ∧
    (calculateVelocityFromModelUsage mud).isAccelerating = false := by
  have htrend : trendOf mud = Trend.stable := by
    unfold trendOf
    rw [trendPercentOf_eq_zero]
    norm_num
  refine ⟨?_, ?_, htrend, ?_⟩
  · show jsRound (velocityRaw mud).2.1 = jsRound (velocityRaw mud).1
    rw [velocityRaw_total24h_eq_current]
  · show (jsRound (trendPercentOf mud * 10) : ℚ) / 10 = 0
    rw [trendPercentOf_eq_zero]
    norm_num [jsRound]
  · show decide (trendOf mud = Trend.increasing ∧ 20 < trendPercentOf mud) = false
    rw [htrend, trendPercentOf_eq_zero]
    decide

/-- Claim C9: the daily-usage list has one entry per distinct date appearing
in `x_time`, sorted ascending; every entry has `totalCost = 0` and
`totalTokens = floor(totalTokensUsage / number of distinct dates)` (which is
`0` when `totalTokensUsage` is `0`; when no date parses the list is empty). -/
theorem mapHourlyToDailyUsage_spec (mud : ZaiModelUsageData) :
    List.Sorted strLeP ((mapHourlyToDailyUsage mud).map DailyUsage.date) ∧
    ((mapHourlyToDailyUsage mud).map DailyUsage.date).Nodup ∧
    (∀ d : String, d ∈ (mapHourlyToDailyUsage mud).map DailyUsage.date ↔
      ∃ h ∈ mud.x_time.getD [], datePartOf h = some d) ∧
    (∀ e ∈ mapHourlyToDailyUsage mud,
      e.totalCost = 0 ∧
      e.totalTokens = ((mud.totalUsage.map ZaiTotalUsage.totalTokensUsage).getD 0) /
        (dailyKeysOf mud).length) := by
  have hdates := mapHourly_dates mud
  refine ⟨?_, ?_, ?_, ?_⟩
  · rw [hdates]
    exact List.sorted_insertionSort _ _
  · rw [hdates]
    exact (List.perm_insertionSort _ _).nodup_iff.mpr (List.nodup_dedup _)
  · intro d
    rw [hdates, (List.perm_insertionSort _ _).mem_iff]
    unfold dailyKeysOf
    rw [List.mem_dedup, List.mem_filterMap]
  · intro e he
    unfold mapHourlyToDailyUsage at he
    obtain ⟨d, hd, rfl⟩ := List.mem_map.mp he
    have hd' : d ∈ dailyKeysOf mud := (List.perm_insertionSort _ _).subset hd
    have hn : 0 < (dailyKeysOf mud).length :=
      List.length_pos.mpr (List.ne_nil_of_mem hd')
    exact ⟨rfl, tokensPerDayOf_eq mud hn⟩

/-- Claim C9 witness: on the concrete response `mudW` (two distinct dates),
the mapped list is sorted and contains the date `2025-01-02`, and its first
entry carries the equal split `4800 / 2` with zero cost. -/
theorem mapHourlyToDailyUsage_spec_witness :
    List.Sorted strLeP ((mapHourlyToDailyUsage mudW).map DailyUsage.date) ∧
    "2025-01-02" ∈ (mapHourlyToDailyUsage mudW).map DailyUsage.date := by
  refine ⟨(mapHourlyToDailyUsage_spec mudW).1, ?_⟩
  refine ((mapHourlyToDailyUsage_spec mudW).2.2.1 _).mpr ?_
  exact ⟨"2025-01-02 10:00:00", by decide, by decide⟩

/-- Claim C10: `loadSettings` is total (never rejects): an absent or
unreadable settings file yields exactly the defaults, and a parsed file
yields the defaults overridden field by field by the keys the file
provides, so every required field is present. -/
theorem loadSettings_total_merge (tz : String) (p : PartialAppSettings) :
    loadSettings (defaultSettings tz) SettingsFile.absent = defaultSettings tz ∧
    loadSettings (defaultSettings tz) SettingsFile.unreadable = defaultSettings tz ∧
    (loadSettings (defaultSettings tz) (SettingsFile.parsed p)).timezone =
      p.timezone.getD tz ∧
    (loadSettings (defaultSettings tz) (SettingsFile.parsed p)).resetHour =
      p.resetHour.getD 0 ∧
    (loadSettings (defaultSettings tz) (SettingsFile.parsed p)).plan =
      p.plan.getD PlanSetting.auto ∧
    (loadSettings (defaultSettings tz) (SettingsFile.parsed p)).customTokenLimit =
      p.customTokenLimit.getD none ∧
    (loadSettings (defaultSettings tz) (SettingsFile.parsed p)).menuBarDisplayMode =
      p.menuBarDisplayMode.getD MenuBarDisplayMode.alternate ∧
    (loadSettings (defaultSettings tz) (SettingsFile.parsed p)).menuBarCostSource =
      p.menuBarCostSource.getD MenuBarCostSource.today ∧
    (loadSettings (defaultSettings tz) (SettingsFile.parsed p)).dataSource =
      p.dataSource.getD DataSource.ccusage :=
  ⟨rfl, rfl, rfl, rfl, rfl, rfl, rfl, rfl, rfl⟩

/-- Claim C1: whenever the fetch path runs (key configured, cache not fresh)
and either endpoint fetch fails, `getUsageStats` does not reject: it returns
the cached stats when present and the mock stats otherwise — cache first,
mock second. -/
theorem getUsageStats_failure_fallback (st : ZaiState) (env : Env) (inp : FetchInputs)
    (hkey : ¬ st.apiKey = "")
    (hstale : st.cachedStats = none ∨ ¬ env.nowMs - st.lastUpdate < CACHE_DURATION)
    (hfail : isFailure (fetchQuotaLimit inp.quotaHttp) = true ∨
      isFailure (fetchModelUsage inp.usageHttp) = true) :
    (getUsageStats st env inp).stats = st.cachedStats.getD (getMockStats env) := by
  rw [getUsageStats_stale st env inp hstale,
    fetchAndMap_failed st env inp env.nowMs hkey hfail]

/-- Claim C1 witness: with a stale cached value and both fetches rejecting,
the call returns the cached value (the `getD` head). -/
theorem getUsageStats_failure_fallback_witness :
    (getUsageStats stCachedStale sampleEnv inpFail).stats =
      stCachedStale.cachedStats.getD (getMockStats sampleEnv) :=
  getUsageStats_failure_fallback stCachedStale sampleEnv inpFail
    (by decide) (Or.inr (by decide)) (Or.inl (by decide))

/-- Claim C2: a cache hit younger than 30 s returns the cached value
unchanged with no network request; a successful fetch stores the mapped
stats with `lastUpdate = now`, so any second call within 30 s returns the
identical stats. -/
theorem getUsageStats_cache_behavior :
    (∀ (st : ZaiState) (env : Env) (inp : FetchInputs) (c : UsageStats),
      st.cachedStats = some c → env.nowMs - st.lastUpdate < CACHE_DURATION →
      getUsageStats st env inp = { stats := c, state := st, requests := [] }) ∧
    (∀ (st : ZaiState) (env : Env) (inp : FetchInputs) (q : ZaiQuotaLimit)
      (m : ZaiModelUsageData),
      ¬ st.apiKey = "" →
      (st.cachedStats = none ∨ ¬ env.nowMs - st.lastUpdate < CACHE_DURATION) →
      fetchQuotaLimit inp.quotaHttp = Except.ok q →
      fetchModelUsage inp.usageHttp = Except.ok m →
      (getUsageStats st env inp).stats = mapZaiToUsageStats env q m ∧
      (getUsageStats st env inp).state.cachedStats = some ((getUsageStats st env inp).stats) ∧
      (getUsageStats st env inp).state.lastUpdate = env.nowMs ∧
      (∀ (env2 : Env) (inp2 : FetchInputs), env2.nowMs - env.nowMs < CACHE_DURATION →
        (getUsageStats ((getUsageStats st env inp).state) env2 inp2).stats =
          (getUsageStats st env inp).stats)) := by
  have fresh : ∀ (st : ZaiState) (env : Env) (inp : FetchInputs) (c : UsageStats),
      st.cachedStats = some c → env.nowMs - st.lastUpdate < CACHE_DURATION →
      getUsageStats st env inp = { stats := c, state := st, requests := [] } := by
    intro st env inp c hc hf
    unfold getUsageStats
    rw [hc]
    dsimp only
    rw [if_pos hf]
  refine ⟨fresh, ?_⟩
  intro st env inp q m hkey hstale hq hm
  rw [getUsageStats_stale st env inp hstale,
    fetchAndMap_ok st env inp env.nowMs q m hkey hq hm]
  refine ⟨rfl, rfl, rfl, ?_⟩
  intro env2 inp2 hf2
  rw [fresh _ env2 inp2 (mapZaiToUsageStats env q m) rfl hf2]

/-- Claim C2 witness: a fresh cached value is returned verbatim with no
requests, and after a successful fetch a second call 10 s later returns the
same stats. -/
theorem getUsageStats_cache_behavior_witness :
    getUsageStats stCachedFresh sampleEnv inpFail =
      { stats := sampleStats, state := stCachedFresh, requests := [] } ∧
    (getUsageStats ((getUsageStats stEmpty sampleEnv inpOk).state) sampleEnv2 inpFail).stats =
      (getUsageStats stEmpty sampleEnv inpOk).stats := by
  constructor
  · exact getUsageStats_cache_behavior.1 stCachedFresh sampleEnv inpFail sampleStats
      rfl (by decide)
  · exact (getUsageStats_cache_behavior.2 stEmpty sampleEnv inpOk tlW mudW (by decide)
      (Or.inl rfl) rfl rfl).2.2.2 sampleEnv2 inpFail (by decide)

/-- Claim C3 counterexample: with a quota response whose `remaining` and
`percentage` fields are not arithmetically consistent (`currentValue = 100`,
`usage = 200`, `remaining = 5`, `percentage = 7`), the stats returned by
`getUsageStats` violate both claimed identities, because the mapper copies
those fields verbatim instead of recomputing them. -/
theorem usageStats_identities_counterexample :
    ¬ ((getUsageStats stEmpty sampleEnv inpBad).stats.percentageUsed =
        (getUsageStats stEmpty sampleEnv inpBad).stats.tokensUsed /
          (getUsageStats stEmpty sampleEnv inpBad).stats.tokenLimit * 100 ∧
      (getUsageStats stEmpty sampleEnv inpBad).stats.tokensRemaining =
        (getUsageStats stEmpty sampleEnv inpBad).stats.tokenLimit -
          (getUsageStats stEmpty sampleEnv inpBad).stats.tokensUsed) := by
  have e1 : (getUsageStats stEmpty sampleEnv inpBad).stats.percentageUsed = 7 := rfl
  have e2 : (getUsageStats stEmpty sampleEnv inpBad).stats.tokensUsed = 100 := rfl
  have e3 : (getUsageStats stEmpty sampleEnv inpBad).stats.tokenLimit = 200 := rfl
  rintro ⟨h1, -⟩
  rw [e1, e2, e3] at h1
  norm_num at h1

/-- Claim C3 (amended): the mock stats satisfy both identities
(`percentageUsed = tokensUsed / tokenLimit * 100` and
`tokensRemaining = tokenLimit - tokensUsed`); API-derived stats instead copy
`currentValue`, `usage`, `remaining` and `percentage` verbatim from the
quota response, so they satisfy the identities only when the API response
itself does. -/
theorem usageStats_identities_amended (env : Env) (q : ZaiQuotaLimit)
    (mud : ZaiModelUsageData) :
    ((getMockStats env).percentageUsed =
        (getMockStats env).tokensUsed / (getMockStats env).tokenLimit * 100 ∧
      (getMockStats env).tokensRemaining =
        (getMockStats env).tokenLimit - (getMockStats env).tokensUsed) ∧
    ((mapZaiToUsageStats env q mud).tokensUsed = q.currentValue ∧
      (mapZaiToUsageStats env q mud).tokenLimit = q.usage ∧
      (mapZaiToUsageStats env q mud).tokensRemaining = q.remaining ∧
      (mapZaiToUsageStats env q mud).percentageUsed = q.percentage) :=
  ⟨⟨rfl, rfl⟩, rfl, rfl, rfl, rfl⟩

/-! ## Helper lemmas for the `fetchQuotaLimit` contract -/

theorem fetchQuotaLimit_ok_iff (status : Nat) (body : Option ZaiQuotaResponse)
    (tl : ZaiQuotaLimit) :
    fetchQuotaLimit (HttpOutcome.response status body) = Except.ok tl ↔
      respOk status = true ∧ ∃ data limits,
        body = some data ∧ data.success = true ∧ data.limits = some limits ∧
        limits.find? (fun l => decide (l.type = "TOKENS_LIMIT")) = some tl := by
  unfold fetchQuotaLimit
  dsimp only
  by_cases hok : respOk status = false
  · rw [if_pos hok]
    constructor
    · intro h
      split at h <;>
        first
          | simp at h
          | (split at h <;> simp at h)
    · rintro ⟨hr, -⟩
      rw [hr] at hok
      cases hok
  · have hok' : respOk status = true := by
      revert hok
      cases respOk status <;> simp
    rw [if_neg hok]
    cases body with
    | none => simp
    | some data =>
        dsimp only
        cases hs : data.success with
        | false => simp [hs, hok']
        | true =>
            cases hl : data.limits with
            | none => simp [hs, hl, hok']
            | some limits =>
                cases hf : limits.find? (fun l => decide (l.type = "TOKENS_LIMIT")) with
                | none => simp [hs, hl, hf, hok']
                | some tl2 => simp [hs, hl, hf, hok']

theorem fetchQuotaLimit_respOk_cases (status : Nat) (body : Option ZaiQuotaResponse)
    (hok : ¬ respOk status = false) :
    fetchQuotaLimit (HttpOutcome.response status body) = Except.error ZaiError.parseFailed ∨
    fetchQuotaLimit (HttpOutcome.response status body) = Except.error ZaiError.invalidResponse ∨
    fetchQuotaLimit (HttpOutcome.response status body) =
      Except.error ZaiError.tokensLimitNotFound ∨
    ∃ tl, fetchQuotaLimit (HttpOutcome.response status body) = Except.ok tl := by
  unfold fetchQuotaLimit
  dsimp only
  rw [if_neg hok]
  cases body with
  | none => exact Or.inl rfl
  | some data =>
      dsimp only
      cases hs : data.success with
      | false => exact Or.inr (Or.inl rfl)
      | true =>
          cases hl : data.limits with
          | none => exact Or.inr (Or.inl rfl)
          | some limits =>
              dsimp only
              cases hf : limits.find? (fun l => decide (l.type = "TOKENS_LIMIT")) with
              | none => exact Or.inr (Or.inr (Or.inl rfl))
              | some tl => exact Or.inr (Or.inr (Or.inr ⟨tl, rfl⟩))

theorem fetchQuotaLimit_auth_iff (status : Nat) (body : Option ZaiQuotaResponse) :
    fetchQuotaLimit (HttpOutcome.response status body) = Except.error ZaiError.authFailed ↔
      (status = 401 ∨ status = 403) := by
  by_cases hst : status = 401 ∨ status = 403
  · have hok : respOk status = false := by
      rcases hst with h | h <;> subst h <;> decide
    unfold fetchQuotaLimit
    dsimp only
    rw [if_pos hok, if_pos hst]
    simp [hst]
  · constructor
    · intro h
      by_cases hok : respOk status = false
      · unfold fetchQuotaLimit at h
        dsimp only at h
        rw [if_pos hok, if_neg hst] at h
        split at h <;> simp at h
      · rcases fetchQuotaLimit_respOk_cases status body hok with h2 | h2 | h2 | ⟨tl, h2⟩ <;>
          rw [h] at h2 <;> simp at h2
    · intro h
      exact absurd h hst

theorem fetchQuotaLimit_rate_iff (status : Nat) (body : Option ZaiQuotaResponse) :
    fetchQuotaLimit (HttpOutcome.response status body) = Except.error ZaiError.rateLimited ↔
      status = 429 := by
  by_cases h429 : status = 429
  · subst h429
    unfold fetchQuotaLimit
    dsimp only
    rw [if_pos (by decide), if_neg (by decide), if_pos rfl]
    simp
  · constructor
    · intro h
      by_cases hok : respOk status = false
      · unfold fetchQuotaLimit at h
        dsimp only at h
        rw [if_pos hok] at h
        by_cases hst : status = 401 ∨ status = 403
        · rw [if_pos hst] at h
          simp at h
        · rw [if_neg hst, if_neg h429] at h
          simp at h
      · rcases fetchQuotaLimit_respOk_cases status body hok with h2 | h2 | h2 | ⟨tl, h2⟩ <;>
          rw [h] at h2 <;> simp at h2
    · intro h
      exact absurd h h429

/-- Claim C4: `fetchQuotaLimit` returns a quota record exactly when the
response is ok (status 200–299), the body parses with `success = true` and a
`limits` array, and that array contains a `TOKENS_LIMIT` entry — the first
such entry is returned; in every other case it throws, with an
authentication error exactly for statuses 401/403, a rate-limit error
exactly for 429, and a network error when the fetch itself rejects. -/
theorem fetchQuotaLimit_contract :
    (∀ (status : Nat) (body : Option ZaiQuotaResponse) (tl : ZaiQuotaLimit),
      fetchQuotaLimit (HttpOutcome.response status body) = Except.ok tl ↔
        respOk status = true ∧ ∃ data limits,
          body = some data ∧ data.success = true ∧ data.limits = some limits ∧
          limits.find? (fun l => decide (l.type = "TOKENS_LIMIT")) = some tl) ∧
    (∀ (status : Nat) (body : Option ZaiQuotaResponse),
      fetchQuotaLimit (HttpOutcome.response status body) = Except.error ZaiError.authFailed ↔
        (status = 401 ∨ status = 403)) ∧
    (∀ (status : Nat) (body : Option ZaiQuotaResponse),
      fetchQuotaLimit (HttpOutcome.response status body) = Except.error ZaiError.rateLimited ↔
        status = 429) ∧
    fetchQuotaLimit HttpOutcome.networkError = Except.error ZaiError.network :=
  ⟨fetchQuotaLimit_ok_iff, fetchQuotaLimit_auth_iff, fetchQuotaLimit_rate_iff, rfl⟩

/-- Claim C4 witness: a 401 response yields the authentication error, a 429
response yields the rate-limit error, and the concrete successful response
`quotaRespW` yields its `TOKENS_LIMIT` entry. -/
theorem fetchQuotaLimit_contract_witness :
    fetchQuotaLimit (HttpOutcome.response 401 none) = Except.error ZaiError.authFailed ∧
    fetchQuotaLimit (HttpOutcome.response 429 none) = Except.error ZaiError.rateLimited ∧
    fetchQuotaLimit inpOk.quotaHttp = Except.ok tlW := by
  refine ⟨?_, ?_, ?_⟩
  · exact (fetchQuotaLimit_contract.2.1 401 none).mpr (Or.inl rfl)
  · exact (fetchQuotaLimit_contract.2.2.1 429 none).mpr rfl
  · exact (fetchQuotaLimit_contract.1 200 (some quotaRespW) tlW).mpr
      ⟨by decide, quotaRespW, [tlW], rfl, rfl, rfl, by decide⟩

end CCSeva
